import Mathlib

/-!
Shallow embedding of the narwhal client library's shared response cache,
request-dispatch layer and error classifier (src/error.rs, src/ddragon.rs,
src/api.rs), together with theorems settling the specification claims.

External collaborators (the HTTP transport, the serde deserializer, the URL
parser of hyper/reqwest) are modelled as oracles passed in as function
arguments; the cache map is modelled as an association list read through
`cacheGet` (first binding wins, exactly the observable behaviour of
`HashMap::get` after `HashMap::insert`).
-/

set_option autoImplicit false

namespace Narwhal

/-- Request identity: a fully resolved URL, modelled by its string form.
Two requests with identical resolved URLs are the same cache entry. -/
abbrev Url := String

/-- Modelled from the spec: `Region` lives in src/constants.rs which is absent
from src/. It is an enumeration of region selectors; `check_status` is
parametric in it, so the exact variant list is immaterial. The variants named
in the spec scenarios and the repository tests are included. -/
inductive Region where
  | NA
  | EU
  | EUW
  | RU
  | KR
deriving DecidableEq, Repr

/-- Modelled from the spec: `Region::as_platform_str` (src/constants.rs, absent
from src/) maps a region to its platform routing string used in the base URL
template. The concrete strings are immaterial to every claim. -/
def Region.as_platform_str : Region → String
  | .NA => "na1"
  | .EU => "eun1"
  | .EUW => "euw1"
  | .RU => "ru"
  | .KR => "kr"

/-- The `ClientError` enum of src/error.rs. `WrongToken` and `NoToken` are
variants produced through snafu context selectors in src/api.rs (their
declarations sit in a revision of error.rs not under src/); they carry the
context api.rs supplies. `Other` wraps a transport-level failure. -/
inductive ClientError where
  | BadRequest
  | Unauthorized
  | Forbidden
  | DataNotFound
  | MethodNotAllowed
  | UnsupportedMediaType
  | RateLimitExceeded (limit : Nat)
  | InternalServerError
  | BadGateway
  | ServiceUnavailable (region : Region)
  | GatewayTimeout
  | UrlNotParsed
  | WrongToken (token : String)
  | NoToken
  | Other
deriving DecidableEq, Repr

/-- Embeds `ClientError::check_status` (src/error.rs, lines 48-63): a match on
the status code; every arm not listed falls through to `Ok(())`. A Rust match
on integer literals is an equality chain, embedded here as an if-chain. -/
def ClientError.check_status (region : Region) (code : Nat) : Except ClientError Unit :=
  if code = 400 then .error .BadRequest
  else if code = 401 then .error .Unauthorized
  else if code = 403 then .error .Forbidden
  else if code = 404 then .error .DataNotFound
  else if code = 405 then .error .MethodNotAllowed
  else if code = 415 then .error .UnsupportedMediaType
  else if code = 429 then .error (.RateLimitExceeded 0)
  else if code = 500 then .error .InternalServerError
  else if code = 502 then .error .BadGateway
  else if code = 503 then .error (.ServiceUnavailable region)
  else if code = 504 then .error .GatewayTimeout
  else .ok ()

/-- Helper for `strContains`: `needle` occurs at some position of `hay`. -/
def charsContain (needle : List Char) : List Char → Bool
  | [] => needle.isEmpty
  | c :: rest => needle.isPrefixOf (c :: rest) || charsContain needle rest

/-- Rust's `str::contains(needle)`: substring containment, embedded as infix
containment of the character lists. -/
def strContains (hay needle : String) : Bool :=
  charsContain needle.toList hay.toList

/-- Embeds `check_token` (src/api.rs, lines 243-252): fails with `WrongToken`
unless the token contains "RGAPI" and its byte length is exactly 42 (Rust
`str::len` is the UTF-8 byte length). -/
def check_token (token : String) : Except ClientError Unit :=
  if !strContains token "RGAPI" || token.utf8ByteSize != 42 then
    .error (.WrongToken token)
  else
    .ok ()

/-- The response cache: a mapping from request identity to raw response body,
modelled as an association list whose first binding for a key wins. -/
abbrev Cache := List (Url × String)

/-- Models `HashMap::get` on the cache. -/
def cacheGet : Cache → Url → Option String
  | [], _ => none
  | (k, v) :: rest, url => if k = url then some v else cacheGet rest url

/-- Models `HashMap::insert` on the cache: the new binding shadows any older
one, which under `cacheGet` is exactly the map update. -/
def cacheInsert (cache : Cache) (url : Url) (body : String) : Cache :=
  (url, body) :: cache

/-- The outcome of one `send()?.text()?` round trip of the blocking reqwest
client: the response status together with its full body text, or a transport
failure (either call returning `Err`). -/
inductive HttpResult where
  | success (status : Nat) (body : String)
  | failure
deriving DecidableEq, Repr

/-- The observable result of a ddragon dispatch: the Ok value, an Err
propagated from the transport by the `?` operator, or a panic raised by an
`unwrap`/`expect` on a failed deserialization. -/
inductive DispatchResult (T : Type) where
  | ok (val : T)
  | reqwestError
  | panicked
deriving DecidableEq, Repr

/-- Everything a dispatch leaves behind: its result, the cache afterwards and
the number of network calls it performed. -/
structure DispatchOut (T : Type) where
  result : DispatchResult T
  cache : Cache
  netCalls : Nat
deriving DecidableEq, Repr

/-- Embeds `DDragonClient::get_deserialized_or_add_raw` (src/ddragon.rs,
lines 55-72). `parse` is the `serde_json::from_str` oracle for the target
type `T`; `transport` is the HTTP GET oracle standing for the reqwest client.
On a cache hit the stored body is deserialized (its `unwrap` panics when that
fails). On a miss the response text is fetched (`?` propagates a transport
error), inserted into the cache, read back from the cache (`unwrap`) and
deserialized (`expect` panics when that fails). The response status is never
read by this function. -/
def get_deserialized_or_add_raw {T : Type} (parse : String → Option T)
    (transport : Url → HttpResult) (cache : Cache) (url : Url) : DispatchOut T :=
  match cacheGet cache url with
  | some resp =>
    match parse resp with
    | some returnee => ⟨.ok returnee, cache, 0⟩
    | none => ⟨.panicked, cache, 0⟩
  | none =>
    match transport url with
    | .failure => ⟨.reqwestError, cache, 1⟩
    | .success _status response =>
      let cache1 := cacheInsert cache url response
      match cacheGet cache1 url with
      | none => ⟨.panicked, cache1, 1⟩
      | some stored =>
        match parse stored with
        | some returnee => ⟨.ok returnee, cache1, 1⟩
        | none => ⟨.panicked, cache1, 1⟩

/-- Champion payload. The dto module (src/dto/ddragon.rs) is absent from
src/; the spec treats payload shapes as opaque deserialization targets, so
only the fields the embedded code and tests touch are modelled. -/
structure ChampionFullData where
  key : String
  name : String
deriving DecidableEq, Repr

/-- Payload `ChampionExtended`: its `data` field is a
`HashMap<String, ChampionFullData>` keyed by champion name, modelled as an
association list with first-binding-wins lookup. -/
structure ChampionExtended where
  data : List (String × ChampionFullData)
deriving DecidableEq, Repr

/-- Models the value returned by `HashMap::remove(name)` on the `data` map
(the map itself is dropped right after, so only the removed value is
observable). -/
def dataRemove : List (String × ChampionFullData) → String → Option ChampionFullData
  | [], _ => none
  | (k, v) :: rest, name => if k = name then some v else dataRemove rest name

/-- Embeds the `DDragonClient` struct (src/ddragon.rs, lines 8-14) of the
synchronous static-data client. The reqwest `client` field is a transport
handle, supplied as the `transport` oracle at each call. -/
structure DDragonClient where
  version : String
  base_url : String
  cache : Cache
deriving DecidableEq, Repr

/-- Embeds `DDragonClient::get_champion` (src/ddragon.rs, lines 44-53):
formats the champion URL (its `.parse().unwrap()` on the URL string is
modelled as the identity on that string), dispatches for `ChampionExtended`
(the `unwrap` on the dispatch result turns a transport error into a panic),
removes the entry keyed by the requested name from the payload's data map
(that `unwrap` panics when the entry is absent) and returns it wrapped in
`Ok`. -/
def get_champion (parse : String → Option ChampionExtended)
    (transport : Url → HttpResult) (c : DDragonClient) (name : String) :
    DispatchResult ChampionFullData × DDragonClient :=
  let url : Url := c.base_url ++ "/champion/" ++ name ++ ".json"
  let out := get_deserialized_or_add_raw parse transport c.cache url
  let c1 : DDragonClient := { c with cache := out.cache }
  match out.result with
  | .ok ext =>
    match dataRemove ext.data name with
    | some champ => (.ok champ, c1)
    | none => (.panicked, c1)
  | .reqwestError => (.panicked, c1)
  | .panicked => (.panicked, c1)

/-- One dispatch request in a trace: the target URL together with the
transport's behaviour at the moment of the call. -/
structure DispatchStep where
  url : Url
  transport : Url → HttpResult

/-- The cache left behind by a sequence of dispatches. The cache evolution of
`get_deserialized_or_add_raw` does not depend on the deserialization outcome,
so a single target type stands in for all callers. -/
def runDispatches {T : Type} (parse : String → Option T) :
    Cache → List DispatchStep → Cache
  | cache, [] => cache
  | cache, step :: rest =>
    runDispatches parse
      (get_deserialized_or_add_raw parse step.transport cache step.url).cache rest

/-- Counts the dispatches of a trace that mutate the store's binding at key
`u`: a mutation is a step whose before and after bindings at `u` differ. -/
def mutationsAt {T : Type} (parse : String → Option T) :
    Cache → List DispatchStep → Url → Nat
  | _, [], _ => 0
  | cache, step :: rest, u =>
    (if cacheGet cache u =
        cacheGet (get_deserialized_or_add_raw parse step.transport cache step.url).cache u
     then 0 else 1) +
      mutationsAt parse (get_deserialized_or_add_raw parse step.transport cache step.url).cache
        rest u

/-- A reference-counted handle (`Arc<Mutex<..>>`) to a shared storage or
transport instance, modelled by the identity of the storage it points at:
`Arc::clone` yields a handle with the same `storageId`, while an independent
copy would carry a fresh one. -/
structure ArcHandle where
  storageId : Nat
deriving DecidableEq, Repr

/-- Models `Arc::clone`: the new handle shares the very same storage. -/
def ArcHandle.clone (h : ArcHandle) : ArcHandle := h

/-- Modelled from the spec: the embedded static-data facade produced by
`DDragonClient::new_for_lapi`, whose constructor lives in a revision of
src/ddragon.rs that is not under src/ (only its caller in src/api.rs is).
Per spec section 4.1, the secondary facade built from an existing client
carries the parent's transport client and cache handles. -/
structure EmbeddedDDragonClient where
  client : ArcHandle
  cache : ArcHandle
  language : String
deriving DecidableEq, Repr

/-- Modelled from the spec: `DDragonClient::new_for_lapi(client, cache,
language)` (absent from src/) builds the embedded facade from the handle
clones its caller passes, reusing the same storage instances rather than
independent copies. -/
def DDragonClient.new_for_lapi (client : ArcHandle) (cache : ArcHandle)
    (language : String) : EmbeddedDDragonClient :=
  ⟨client, cache, language⟩

/-- Embeds the `LeagueClient` struct (src/api.rs, lines 39-47). `client` and
`cache` are the shared reference-counted handles; `ddragon` is the optionally
embedded static-data facade. -/
structure LeagueClient where
  client : ArcHandle
  cache : ArcHandle
  region : Region
  base_url : String
  ddragon : Option EmbeddedDDragonClient
  api_key : String
deriving DecidableEq, Repr

/-- Embeds `LeagueClient::new` (src/api.rs, lines 54-68). `env_api_key`
models `std::env::var("RIOT_API_KEY")` (`none` = variable missing, giving the
snafu `NoToken` context error); `fresh_client` and `fresh_cache` stand for
the newly constructed hyper client and the newly allocated empty cache map.
The body performs no network call on any path; the second component counts
the network calls made, which is therefore zero. -/
def LeagueClient.new (env_api_key : Option String) (fresh_client fresh_cache : ArcHandle)
    (region : Region) : Except ClientError LeagueClient × Nat :=
  match env_api_key with
  | none => (.error .NoToken, 0)
  | some api_key =>
    match check_token api_key with
    | .error e => (.error e, 0)
    | .ok _ =>
      (.ok ⟨fresh_client, fresh_cache, region,
        "https://" ++ region.as_platform_str ++ ".api.riotgames.com/lol", none, api_key⟩, 0)

/-- Embeds `LeagueClient::with_ddragon` (src/api.rs, lines 71-78): builds the
embedded facade from clones of the parent's client and cache handles, stores
it in the `ddragon` field and keeps every other field through the
struct-update syntax. -/
def LeagueClient.with_ddragon (c : LeagueClient) (language : String) : LeagueClient :=
  { c with ddragon := some (DDragonClient.new_for_lapi c.client.clone c.cache.clone language) }

/-- The outcome of calling the `ddragon()` accessor: the embedded facade, or
the panic of the `None` arm. -/
inductive DDragonAccess where
  | ok (dd : EmbeddedDDragonClient)
  | panicked
deriving DecidableEq, Repr

/-- Embeds `LeagueClient::ddragon` (src/api.rs, lines 86-94): returns the
embedded facade when one was configured and panics otherwise. Named
`ddragonAccessor` because `ddragon` is taken by the field projection. -/
def LeagueClient.ddragonAccessor (c : LeagueClient) : DDragonAccess :=
  match c.ddragon with
  | some dd => .ok dd
  | none => .panicked

/-- The result of a platform-API request: the value, a classified
`ClientError`, or a panic. -/
inductive LapiResult (T : Type) where
  | ok (val : T)
  | err (e : ClientError)
  | panicked
deriving DecidableEq, Repr

/-- Everything a platform-API dispatch leaves behind: its result, the cache
afterwards and the number of network calls it performed. -/
structure LapiDispatchOut (T : Type) where
  result : LapiResult T
  cache : Cache
  netCalls : Nat
deriving DecidableEq, Repr

/-- Modelled from the spec: `cached_resp` (src/utils.rs, absent from src/ —
only its callers in src/api.rs are), the Dispatcher of spec section 4.2,
following its five steps: look the identity up in the shared store; on a hit
deserialize the stored body (a failure here is a fatal decoding error,
modelled as a panic); on a miss issue the GET with the credential attached as
a header; classify the status with `ClientError::check_status` and
short-circuit on its error without caching; on success store the body under
the identity, deserialize it and return. A transport failure is wrapped into
the generic transport-error outcome. -/
def cached_resp {T : Type} (parse : String → Option T) (transport : Url → HttpResult)
    (region : Region) (cache : Cache) (url : Url) : LapiDispatchOut T :=
  match cacheGet cache url with
  | some resp =>
    match parse resp with
    | some v => ⟨.ok v, cache, 0⟩
    | none => ⟨.panicked, cache, 0⟩
  | none =>
    match transport url with
    | .failure => ⟨.err .Other, cache, 1⟩
    | .success status body =>
      match ClientError.check_status region status with
      | .error e => ⟨.err e, cache, 1⟩
      | .ok _ =>
        match parse body with
        | some v => ⟨.ok v, cacheInsert cache url body, 1⟩
        | none => ⟨.panicked, cacheInsert cache url body, 1⟩

/-- Summoner payload: an opaque deserialization target (src/dto/api.rs is
absent from src/); only the field the repository tests read is modelled. -/
structure Summoner where
  name : String
deriving DecidableEq, Repr

/-- Embeds `LeagueClient::get_summoner_by_name` (src/api.rs, lines 116-131):
formats the endpoint URL, parses it as a `hyper::Uri` through the `parseUri`
oracle — the source's `.parse().unwrap()` panics when parsing fails, before
any network call — and otherwise dispatches through `cached_resp` with the
shared cache and the api key attached. -/
def get_summoner_by_name (parse : String → Option Summoner)
    (parseUri : String → Option Url) (transport : Url → HttpResult)
    (c : LeagueClient) (cache : Cache) (name : String) : LapiDispatchOut Summoner :=
  match parseUri (c.base_url ++ "/summoner/v4/summoners/by-name/" ++ name) with
  | none => ⟨.panicked, cache, 0⟩
  | some url => cached_resp parse transport c.region cache url

end Narwhal

namespace Narwhal

/-- C4. For every status code and region, `check_status` returns exactly the
outcome of the fixed table: 400 BadRequest, 401 Unauthorized, 403 Forbidden,
404 DataNotFound, 405 MethodNotAllowed, 415 UnsupportedMediaType,
429 RateLimitExceeded with limit 0, 500 InternalServerError, 502 BadGateway,
503 ServiceUnavailable carrying the supplied region, 504 GatewayTimeout; and
for 200 and every code not listed it returns `Ok`. -/
theorem check_status_matches_table (region : Region) (code : Nat) :
    ClientError.check_status region 400 = .error .BadRequest ∧
    ClientError.check_status region 401 = .error .Unauthorized ∧
    ClientError.check_status region 403 = .error .Forbidden ∧
    ClientError.check_status region 404 = .error .DataNotFound ∧
    ClientError.check_status region 405 = .error .MethodNotAllowed ∧
    ClientError.check_status region 415 = .error .UnsupportedMediaType ∧
    ClientError.check_status region 429 = .error (.RateLimitExceeded 0) ∧
    ClientError.check_status region 500 = .error .InternalServerError ∧
    ClientError.check_status region 502 = .error .BadGateway ∧
    ClientError.check_status region 503 = .error (.ServiceUnavailable region) ∧
    ClientError.check_status region 504 = .error .GatewayTimeout ∧
    ClientError.check_status region 200 = .ok () ∧
    (code ∉ ([400, 401, 403, 404, 405, 415, 429, 500, 502, 503, 504] : List Nat) →
      ClientError.check_status region code = .ok ()) := by
  refine ⟨rfl, rfl, rfl, rfl, rfl, rfl, rfl, rfl, rfl, rfl, rfl, rfl, ?_⟩
  intro h
  simp only [List.mem_cons, List.not_mem_nil, or_false] at h
  push_neg at h
  obtain ⟨h1, h2, h3, h4, h5, h6, h7, h8, h9, h10, h11⟩ := h
  simp [ClientError.check_status, h1, h2, h3, h4, h5, h6, h7, h8, h9, h10, h11]

/-- Witness for C4: scenario B, status 503 with region EU yields
ServiceUnavailable carrying EU; 429 yields RateLimitExceeded with limit 0;
208 is not in the table and yields success. -/
theorem check_status_matches_table_witness :
    ClientError.check_status .EU 503 = .error (.ServiceUnavailable .EU) ∧
    ClientError.check_status .EU 429 = .error (.RateLimitExceeded 0) ∧
    ClientError.check_status .EU 208 = .ok () := by
  have h := check_status_matches_table .EU 208
  exact ⟨h.2.2.2.2.2.2.2.2.2.1, h.2.2.2.2.2.2.1, h.2.2.2.2.2.2.2.2.2.2.2.2 (by decide)⟩

end Narwhal

namespace Narwhal

theorem cacheGet_insert_self (cache : Cache) (url : Url) (body : String) :
    cacheGet (cacheInsert cache url body) url = some body := by
  simp [cacheInsert, cacheGet]

theorem cacheGet_insert_ne (cache : Cache) (url u : Url) (body : String) (h : url ≠ u) :
    cacheGet (cacheInsert cache url body) u = cacheGet cache u := by
  simp [cacheInsert, cacheGet, h]

theorem dispatch_hit_eq {T : Type} (parse : String → Option T) (transport : Url → HttpResult)
    (cache : Cache) (url : Url) (resp : String) (h : cacheGet cache url = some resp) :
    get_deserialized_or_add_raw parse transport cache url =
      ⟨(match parse resp with
        | some returnee => DispatchResult.ok returnee
        | none => .panicked), cache, 0⟩ := by
  cases hp : parse resp <;> simp [get_deserialized_or_add_raw, h, hp]

theorem dispatch_missFail_eq {T : Type} (parse : String → Option T)
    (transport : Url → HttpResult) (cache : Cache) (url : Url)
    (hmiss : cacheGet cache url = none) (htr : transport url = .failure) :
    get_deserialized_or_add_raw parse transport cache url = ⟨.reqwestError, cache, 1⟩ := by
  unfold get_deserialized_or_add_raw
  rw [hmiss, htr]

theorem dispatch_missSuccess_eq {T : Type} (parse : String → Option T)
    (transport : Url → HttpResult) (cache : Cache) (url : Url) (status : Nat) (body : String)
    (hmiss : cacheGet cache url = none) (htr : transport url = .success status body) :
    get_deserialized_or_add_raw parse transport cache url =
      ⟨(match parse body with
        | some returnee => DispatchResult.ok returnee
        | none => .panicked), cacheInsert cache url body, 1⟩ := by
  cases hp : parse body <;>
    simp [get_deserialized_or_add_raw, hmiss, htr, cacheGet_insert_self, hp]

theorem dispatch_preserves_binding {T : Type} (parse : String → Option T)
    (transport : Url → HttpResult) (cache : Cache) (url u : Url) (b : String)
    (h : cacheGet cache u = some b) :
    cacheGet (get_deserialized_or_add_raw parse transport cache url).cache u = some b := by
  cases hget : cacheGet cache url with
  | some resp =>
    rw [dispatch_hit_eq parse transport cache url resp hget]
    exact h
  | none =>
    cases htr : transport url with
    | failure =>
      rw [dispatch_missFail_eq parse transport cache url hget htr]
      exact h
    | success status body =>
      rw [dispatch_missSuccess_eq parse transport cache url status body hget htr]
      have hne : url ≠ u := by
        intro he
        rw [he, h] at hget
        exact Option.noConfusion hget
      rw [cacheGet_insert_ne cache url u body hne]
      exact h

theorem mutationsAt_of_present {T : Type} (parse : String → Option T) (steps : List DispatchStep)
    (cache : Cache) (u : Url) (b : String) (h : cacheGet cache u = some b) :
    mutationsAt parse cache steps u = 0 := by
  induction steps generalizing cache with
  | nil => rfl
  | cons step rest ih =>
    have hpres := dispatch_preserves_binding parse step.transport cache step.url u b h
    simp only [mutationsAt, h, hpres, if_pos, Nat.zero_add]
    exact ih _ hpres

theorem mutationsAt_le_one {T : Type} (parse : String → Option T) (steps : List DispatchStep)
    (cache : Cache) (u : Url) :
    mutationsAt parse cache steps u ≤ 1 := by
  induction steps generalizing cache with
  | nil => exact Nat.zero_le 1
  | cons step rest ih =>
    simp only [mutationsAt]
    cases hc : cacheGet cache u with
    | some b =>
      have hpres := dispatch_preserves_binding parse step.transport cache step.url u b hc
      rw [hpres, if_pos rfl, Nat.zero_add]
      exact ih _
    | none =>
      cases hc1 :
          cacheGet (get_deserialized_or_add_raw parse step.transport cache step.url).cache u with
      | none =>
        rw [if_pos rfl, Nat.zero_add]
        exact ih _
      | some b =>
        rw [if_neg (by simp), mutationsAt_of_present parse rest _ u b hc1]

end Narwhal

namespace Narwhal

/-- C1. For every request identity already present in the cache store, a
dispatch through `get_deserialized_or_add_raw` performs zero network calls,
leaves the store unchanged and returns exactly the value obtained by
deserializing the stored raw body; consequently, after a first fetch of a
fresh identity succeeds, a second fetch of the same identity immediately
afterwards performs zero network calls and returns the same logical value. -/
theorem dispatch_hit_zero_network {T : Type} (parse : String → Option T)
    (transport : Url → HttpResult) (cache : Cache) (url : Url) :
    (∀ body, cacheGet cache url = some body →
      get_deserialized_or_add_raw parse transport cache url =
        ⟨(match parse body with
          | some t => DispatchResult.ok t
          | none => .panicked), cache, 0⟩) ∧
    (∀ status body t, cacheGet cache url = none →
      transport url = .success status body → parse body = some t →
      get_deserialized_or_add_raw parse transport cache url =
        ⟨.ok t, cacheInsert cache url body, 1⟩ ∧
      get_deserialized_or_add_raw parse transport (cacheInsert cache url body) url =
        ⟨.ok t, cacheInsert cache url body, 0⟩) := by
  constructor
  · intro body h
    exact dispatch_hit_eq parse transport cache url body h
  · intro status body t hmiss htr hp
    constructor
    · rw [dispatch_missSuccess_eq parse transport cache url status body hmiss htr, hp]
    · rw [dispatch_hit_eq parse transport (cacheInsert cache url body) url body
        (cacheGet_insert_self cache url body), hp]

/-- Witness for C1 at concrete inputs: a store already holding identity "u"
is served with zero network calls; and scenario A, where a first fetch of a
fresh identity performs one call and a second fetch performs zero calls and
returns the same value. -/
theorem dispatch_hit_zero_network_witness :
    get_deserialized_or_add_raw (T := String) (fun s => some s) (fun _ => .success 200 "B")
        [("u", "B0")] "u" = ⟨.ok "B0", [("u", "B0")], 0⟩ ∧
    get_deserialized_or_add_raw (T := String) (fun s => some s) (fun _ => .success 200 "B")
        [] "u" = ⟨.ok "B", [("u", "B")], 1⟩ ∧
    get_deserialized_or_add_raw (T := String) (fun s => some s) (fun _ => .success 200 "B")
        [("u", "B")] "u" = ⟨.ok "B", [("u", "B")], 0⟩ := by
  refine ⟨?_, ?_, ?_⟩
  · exact (dispatch_hit_zero_network (T := String) (fun s => some s)
      (fun _ => .success 200 "B") [("u", "B0")] "u").1 "B0" rfl
  · exact ((dispatch_hit_zero_network (T := String) (fun s => some s)
      (fun _ => .success 200 "B") [] "u").2 200 "B" "B" rfl rfl rfl).1
  · exact ((dispatch_hit_zero_network (T := String) (fun s => some s)
      (fun _ => .success 200 "B") [] "u").2 200 "B" "B" rfl rfl rfl).2

/-- C2. For every request identity not present in the cache store, a dispatch
whose network call succeeds performs exactly one network call and exactly one
store write, inserting the fetched raw response body keyed by that identity,
and returns the deserialization of that body; and over any trace of
dispatches, each distinct identity's binding is mutated at most once. -/
theorem dispatch_miss_single_write {T : Type} (parse : String → Option T)
    (transport : Url → HttpResult) (cache : Cache) (url : Url) :
    (∀ status body, cacheGet cache url = none → transport url = .success status body →
      get_deserialized_or_add_raw parse transport cache url =
        ⟨(match parse body with
          | some t => DispatchResult.ok t
          | none => .panicked), cacheInsert cache url body, 1⟩ ∧
      cacheGet (cacheInsert cache url body) url = some body) ∧
    (∀ steps u, mutationsAt parse cache steps u ≤ 1) := by
  constructor
  · intro status body hmiss htr
    exact ⟨dispatch_missSuccess_eq parse transport cache url status body hmiss htr,
      cacheGet_insert_self cache url body⟩
  · intro steps u
    exact mutationsAt_le_one parse steps cache u

/-- Witness for C2 at concrete inputs: a miss performs one call and one
write, and a trace of three dispatches for the same identity mutates its
binding at most once. -/
theorem dispatch_miss_single_write_witness :
    get_deserialized_or_add_raw (T := String) (fun s => some s) (fun _ => .success 200 "B")
        [] "u" = ⟨.ok "B", [("u", "B")], 1⟩ ∧
    cacheGet [("u", "B")] "u" = some "B" ∧
    mutationsAt (T := String) (fun s => some s) []
      [⟨"u", fun _ => .success 200 "B"⟩, ⟨"u", fun _ => .success 200 "C"⟩,
       ⟨"u", fun _ => .failure⟩] "u" ≤ 1 := by
  refine ⟨?_, ?_, ?_⟩
  · exact ((dispatch_miss_single_write (T := String) (fun s => some s)
      (fun _ => .success 200 "B") [] "u").1 200 "B" rfl rfl).1
  · exact ((dispatch_miss_single_write (T := String) (fun s => some s)
      (fun _ => .success 200 "B") [] "u").1 200 "B" rfl rfl).2
  · exact (dispatch_miss_single_write (T := String) (fun s => some s)
      (fun _ => .success 200 "B") [] "u").2 _ "u"

/-- C3 counterexample: with an empty store and a transport answering status
404 — a status `check_status` classifies as the DataNotFound error — the
ddragon dispatch does not return an error outcome: it returns the
deserialized body, and it does write the response body into the store. -/
theorem dispatch_error_status_cached_counterexample :
    get_deserialized_or_add_raw (T := String) (fun s => some s)
        (fun _ => .success 404 "oops") [] "u" =
      ⟨.ok "oops", [("u", "oops")], 1⟩ ∧
    ClientError.check_status .EU 404 = .error .DataNotFound ∧
    cacheGet [("u", "oops")] "u" ≠ cacheGet ([] : Cache) "u" := by
  refine ⟨rfl, rfl, ?_⟩
  simp [cacheGet]

/-- C3 amended: the ddragon dispatch (`get_deserialized_or_add_raw`) never
consults the response status. On a cache miss whose transport call succeeds,
the body is written into the store and the result is its deserialization even
when `check_status` classifies the status as an error; nothing
short-circuits. -/
theorem dispatch_ignores_error_status {T : Type} (parse : String → Option T)
    (transport : Url → HttpResult) (cache : Cache) (url : Url) (status : Nat)
    (body : String) (region : Region) (e : ClientError)
    (hmiss : cacheGet cache url = none) (htr : transport url = .success status body)
    (_herr : ClientError.check_status region status = .error e) :
    get_deserialized_or_add_raw parse transport cache url =
      ⟨(match parse body with
        | some t => DispatchResult.ok t
        | none => .panicked), cacheInsert cache url body, 1⟩ ∧
    cacheGet (cacheInsert cache url body) url = some body :=
  ⟨dispatch_missSuccess_eq parse transport cache url status body hmiss htr,
   cacheGet_insert_self cache url body⟩

/-- Witness for the amended C3: a 503 response — classified as
ServiceUnavailable — is still cached and returned deserialized. -/
theorem dispatch_ignores_error_status_witness :
    get_deserialized_or_add_raw (T := String) (fun s => some s)
        (fun _ => .success 503 "half") [] "u" = ⟨.ok "half", [("u", "half")], 1⟩ ∧
    cacheGet [("u", "half")] "u" = some "half" :=
  dispatch_ignores_error_status (T := String) (fun s => some s)
    (fun _ => .success 503 "half") [] "u" 503 "half" .EU (.ServiceUnavailable .EU)
    rfl rfl rfl

/-- C7. Store invariant preserved by every dispatch sequence: once an
identity maps to a stored raw body, that binding is never removed or
overwritten — every key present in the store before a sequence of dispatches
is present afterwards with the same body. -/
theorem dispatch_store_monotone {T : Type} (parse : String → Option T) (cache : Cache)
    (steps : List DispatchStep) (u : Url) (b : String) (h : cacheGet cache u = some b) :
    cacheGet (runDispatches parse cache steps) u = some b := by
  induction steps generalizing cache with
  | nil => exact h
  | cons step rest ih =>
    exact ih _ (dispatch_preserves_binding parse step.transport cache step.url u b h)

/-- Witness for C7: a pre-existing binding survives a trace of three
dispatches, among them one for its own key and one failing transport. -/
theorem dispatch_store_monotone_witness :
    cacheGet (runDispatches (T := String) (fun s => some s) [("k", "v")]
      [⟨"u", fun _ => .success 200 "B"⟩, ⟨"k", fun _ => .success 200 "X"⟩,
       ⟨"u", fun _ => .failure⟩]) "k" = some "v" :=
  dispatch_store_monotone (fun s => some s) [("k", "v")] _ "k" "v" rfl

end Narwhal

namespace Narwhal

/-- C5. Client construction with a supplied credential token performs no
network call and fails if and only if the token does not both contain the
substring "RGAPI" and have byte length exactly 42; on success the constructed
client carries the token and the fresh handles. -/
theorem construction_token_check (region : Region) (token : String)
    (fresh_client fresh_cache : ArcHandle) :
    (strContains token "RGAPI" = true ∧ token.utf8ByteSize = 42 →
      LeagueClient.new (some token) fresh_client fresh_cache region =
        (.ok ⟨fresh_client, fresh_cache, region,
          "https://" ++ region.as_platform_str ++ ".api.riotgames.com/lol", none, token⟩, 0)) ∧
    (¬(strContains token "RGAPI" = true ∧ token.utf8ByteSize = 42) →
      LeagueClient.new (some token) fresh_client fresh_cache region =
        (.error (.WrongToken token), 0)) ∧
    (LeagueClient.new (some token) fresh_client fresh_cache region).2 = 0 := by
  refine ⟨?_, ?_, ?_⟩
  · rintro ⟨h1, h2⟩
    simp [LeagueClient.new, check_token, h1, h2]
  · intro h
    by_cases h1 : strContains token "RGAPI" = true
    · have h2 : token.utf8ByteSize ≠ 42 := fun hb => h ⟨h1, hb⟩
      simp [LeagueClient.new, check_token, h1, h2]
    · simp [LeagueClient.new, check_token, h1]
  · cases hct : check_token token with
    | error e => simp [LeagueClient.new, hct]
    | ok u => simp [LeagueClient.new, hct]

/-- Witness for C5: scenario C — a 42-character token containing "RGAPI"
passes construction while the 41-character token one short fails with
WrongToken, both with zero network calls. -/
theorem construction_token_check_witness :
    LeagueClient.new (some "RGAPI-12345678-1234-1234-1234-123456789012") ⟨0⟩ ⟨1⟩ .EU =
      (.ok ⟨⟨0⟩, ⟨1⟩, .EU,
        "https://" ++ Region.as_platform_str Region.EU ++ ".api.riotgames.com/lol", none,
        "RGAPI-12345678-1234-1234-1234-123456789012"⟩, 0) ∧
    LeagueClient.new (some "RGAPI-12345678-1234-1234-1234-12345678901") ⟨0⟩ ⟨1⟩ .EU =
      (.error (.WrongToken "RGAPI-12345678-1234-1234-1234-12345678901"), 0) := by
  constructor
  · exact (construction_token_check .EU "RGAPI-12345678-1234-1234-1234-123456789012"
      ⟨0⟩ ⟨1⟩).1 ⟨by decide, by decide⟩
  · exact ((construction_token_check .EU "RGAPI-12345678-1234-1234-1234-12345678901"
      ⟨0⟩ ⟨1⟩).2).1 (by decide)

/-- C6 counterexample: a summoner name whose formatted endpoint URL fails to
parse (under a URI parser that rejects spaces, as hyper's does) makes
`get_summoner_by_name` panic on the `unwrap` of the parse result — with zero
network calls — rather than return the distinct `UrlNotParsed` error. -/
theorem urlNotParsed_counterexample :
    get_summoner_by_name (fun _ => some ⟨"s"⟩)
        (fun s => if strContains s " " then none else some s)
        (fun _ => .success 200 "B")
        ⟨⟨0⟩, ⟨1⟩, .RU, "https://ru.api.riotgames.com/lol", none, "k"⟩ [] "a b" =
      ⟨.panicked, [], 0⟩ ∧
    (LapiResult.panicked : LapiResult Summoner) ≠ .err .UrlNotParsed := by
  constructor
  · rfl
  · intro h
    exact LapiResult.noConfusion h

/-- C6 amended: for every request-identity string that fails to parse as a
URL, `get_summoner_by_name` panics on the `unwrap` of the parse result before
any network call, leaving the store untouched; the `UrlNotParsed` error
variant is not produced on this path. -/
theorem urlParse_failure_panics (parse : String → Option Summoner)
    (parseUri : String → Option Url) (transport : Url → HttpResult)
    (c : LeagueClient) (cache : Cache) (name : String)
    (h : parseUri (c.base_url ++ "/summoner/v4/summoners/by-name/" ++ name) = none) :
    get_summoner_by_name parse parseUri transport c cache name = ⟨.panicked, cache, 0⟩ := by
  unfold get_summoner_by_name
  rw [h]

/-- Witness for the amended C6 at the counterexample's concrete inputs. -/
theorem urlParse_failure_panics_witness :
    get_summoner_by_name (fun _ => some ⟨"s"⟩)
        (fun s => if strContains s " " then none else some s)
        (fun _ => .success 200 "B")
        ⟨⟨0⟩, ⟨1⟩, .RU, "https://ru.api.riotgames.com/lol", none, "k"⟩ [] "a b" =
      ⟨.panicked, [], 0⟩ :=
  urlParse_failure_panics (fun _ => some ⟨"s"⟩)
    (fun s => if strContains s " " then none else some s)
    (fun _ => .success 200 "B")
    ⟨⟨0⟩, ⟨1⟩, .RU, "https://ru.api.riotgames.com/lol", none, "k"⟩ [] "a b" (by rfl)

/-- C8. `with_ddragon` embeds a facade carrying clones of the parent's client
and cache handles — the very same storage instances, not independent copies —
and leaves every other field of the client (client, cache, region, base_url,
api_key) unchanged. -/
theorem with_ddragon_shares_cache (c : LeagueClient) (language : String) :
    (c.with_ddragon language).ddragon =
      some (DDragonClient.new_for_lapi c.client.clone c.cache.clone language) ∧
    (DDragonClient.new_for_lapi c.client.clone c.cache.clone language).cache = c.cache ∧
    (DDragonClient.new_for_lapi c.client.clone c.cache.clone language).client = c.client ∧
    (c.with_ddragon language).client = c.client ∧
    (c.with_ddragon language).cache = c.cache ∧
    (c.with_ddragon language).region = c.region ∧
    (c.with_ddragon language).base_url = c.base_url ∧
    (c.with_ddragon language).api_key = c.api_key :=
  ⟨rfl, rfl, rfl, rfl, rfl, rfl, rfl, rfl⟩

/-- C9. Calling the `ddragon()` accessor on a client on which `with_ddragon`
was not called panics — fail fast, not a silent default — and on a client on
which it was called it returns the embedded facade. -/
theorem ddragon_accessor_contract (c : LeagueClient) (language : String) :
    (c.ddragon = none → c.ddragonAccessor = .panicked) ∧
    (∀ dd, c.ddragon = some dd → c.ddragonAccessor = .ok dd) ∧
    (c.with_ddragon language).ddragonAccessor =
      .ok (DDragonClient.new_for_lapi c.client.clone c.cache.clone language) := by
  refine ⟨?_, ?_, rfl⟩
  · intro h
    unfold LeagueClient.ddragonAccessor
    rw [h]
  · intro dd h
    unfold LeagueClient.ddragonAccessor
    rw [h]

/-- Witness for C9: a client without an embedded facade panics in the
accessor; one with the facade configured gets it back. -/
theorem ddragon_accessor_contract_witness :
    LeagueClient.ddragonAccessor ⟨⟨0⟩, ⟨1⟩, .NA, "b", none, "k"⟩ = .panicked ∧
    LeagueClient.ddragonAccessor
        ⟨⟨0⟩, ⟨1⟩, .NA, "b", some (DDragonClient.new_for_lapi ⟨0⟩ ⟨1⟩ "en_US"), "k"⟩ =
      .ok (DDragonClient.new_for_lapi ⟨0⟩ ⟨1⟩ "en_US") := by
  constructor
  · exact (ddragon_accessor_contract ⟨⟨0⟩, ⟨1⟩, .NA, "b", none, "k"⟩ "en_US").1 rfl
  · exact ((ddragon_accessor_contract
      ⟨⟨0⟩, ⟨1⟩, .NA, "b", some (DDragonClient.new_for_lapi ⟨0⟩ ⟨1⟩ "en_US"), "k"⟩
      "en_US").2).1 (DDragonClient.new_for_lapi ⟨0⟩ ⟨1⟩ "en_US") rfl

/-- C10. `get_champion` deserializes the fetched-or-cached extended payload
and unconditionally unwraps the removal of the entry keyed by the requested
name from the payload's data map: when the map has no entry for that exact
name the call panics rather than returning an error result, and when it has
one the call returns precisely that entry. -/
theorem get_champion_unwraps_entry (parse : String → Option ChampionExtended)
    (transport : Url → HttpResult) (c : DDragonClient) (name : String) :
    (∀ ext, (get_deserialized_or_add_raw parse transport c.cache
        (c.base_url ++ "/champion/" ++ name ++ ".json")).result = .ok ext →
      dataRemove ext.data name = none →
      get_champion parse transport c name =
        (.panicked, { c with cache := (get_deserialized_or_add_raw parse transport c.cache
          (c.base_url ++ "/champion/" ++ name ++ ".json")).cache })) ∧
    (∀ ext champ, (get_deserialized_or_add_raw parse transport c.cache
        (c.base_url ++ "/champion/" ++ name ++ ".json")).result = .ok ext →
      dataRemove ext.data name = some champ →
      get_champion parse transport c name =
        (.ok champ, { c with cache := (get_deserialized_or_add_raw parse transport c.cache
          (c.base_url ++ "/champion/" ++ name ++ ".json")).cache })) := by
  constructor
  · intro ext hres hrem
    simp only [get_champion]
    rw [hres]
    simp [hrem]
  · intro ext champ hres hrem
    simp only [get_champion]
    rw [hres]
    simp [hrem]

/-- Witness for C10 from a warm cache: removing a present champion returns
exactly its entry, and a payload lacking the requested name panics. -/
theorem get_champion_unwraps_entry_witness :
    get_champion
        (fun s => if s = "J1" then some ⟨[("Xayah", ⟨"777", "Xayah"⟩)]⟩
          else if s = "J2" then some ⟨[]⟩ else none)
        (fun _ => .failure)
        ⟨"v", "b", [("b/champion/Xayah.json", "J1"), ("b/champion/Nope.json", "J2")]⟩
        "Xayah" =
      (.ok ⟨"777", "Xayah"⟩,
        ⟨"v", "b", [("b/champion/Xayah.json", "J1"), ("b/champion/Nope.json", "J2")]⟩) ∧
    get_champion
        (fun s => if s = "J1" then some ⟨[("Xayah", ⟨"777", "Xayah"⟩)]⟩
          else if s = "J2" then some ⟨[]⟩ else none)
        (fun _ => .failure)
        ⟨"v", "b", [("b/champion/Xayah.json", "J1"), ("b/champion/Nope.json", "J2")]⟩
        "Nope" =
      (.panicked,
        ⟨"v", "b", [("b/champion/Xayah.json", "J1"), ("b/champion/Nope.json", "J2")]⟩) := by
  constructor
  · exact ((get_champion_unwraps_entry
      (fun s => if s = "J1" then some ⟨[("Xayah", ⟨"777", "Xayah"⟩)]⟩
        else if s = "J2" then some ⟨[]⟩ else none)
      (fun _ => .failure)
      ⟨"v", "b", [("b/champion/Xayah.json", "J1"), ("b/champion/Nope.json", "J2")]⟩
      "Xayah").2) ⟨[("Xayah", ⟨"777", "Xayah"⟩)]⟩ ⟨"777", "Xayah"⟩ rfl rfl
  · exact ((get_champion_unwraps_entry
      (fun s => if s = "J1" then some ⟨[("Xayah", ⟨"777", "Xayah"⟩)]⟩
        else if s = "J2" then some ⟨[]⟩ else none)
      (fun _ => .failure)
      ⟨"v", "b", [("b/champion/Xayah.json", "J1"), ("b/champion/Nope.json", "J2")]⟩
      "Nope").1) ⟨[]⟩ rfl rfl

end Narwhal
